import Mathlib

/-!
Shallow embedding of the spoonbill-underwriting core in Lean 4.

Part 1: the capital-pool ledger (`src/app/models.py`, `src/app/ledger.py`):
claim status state machine, pool/practice/claim records, invariant checks,
and the `fund_claim_atomic` / `settle_claim_atomic` operations.

Modelling conventions:
* Python `int` money fields become `Int`; dates become `Int` day numbers, so
  `(settlement_date - submission_date).days` becomes integer subtraction.
* Python `float` fields (clean-claim rates, confidence scores) become `Rat`;
  the embedded code only stores and compares them, never does float
  arithmetic, so ordering is preserved.
* A Python function that may raise is modelled as returning `PyResult`,
  which carries the in-memory state of the mutated objects at the point the
  exception is raised (the source mutates ORM objects in place; exceptions
  after mutation leave the mutated objects behind).
* `AssertionError` (from bare `assert`), `LedgerError` and its subclass
  `InvariantViolationError` are distinguished error constructors.  The
  interpolated text of transition-wrapping `LedgerError`s is elided in favor
  of a structured payload; the two constant-string business errors of
  `fund_claim_atomic` keep their exact source messages.
-/

inductive ClaimStatus
  | submitted
  | underwriting
  | funded
  | settled
  | reimbursed
  | exception
deriving DecidableEq, Repr

open ClaimStatus

/-- Embeds `CLAIM_STATUS_TRANSITIONS` from `src/app/models.py`. -/
def CLAIM_STATUS_TRANSITIONS : ClaimStatus → List ClaimStatus
  | .submitted => [.underwriting, .exception]
  | .underwriting => [.funded, .exception]
  | .funded => [.reimbursed, .exception, .settled]
  | .settled => []
  | .reimbursed => []
  | .exception => []

/-- Embeds `TERMINAL_STATUSES` from `src/app/models.py`. -/
def TERMINAL_STATUSES : List ClaimStatus := [.settled, .reimbursed, .exception]

inductive TransitionErrKind
  | alreadyInStatus
  | terminalStatus
  | notAllowed
deriving DecidableEq, Repr

/-- Embeds `InvalidStatusTransitionError` from `src/app/models.py`; the formatted
message is replaced by a structured payload. -/
structure InvalidStatusTransitionError where
  current : ClaimStatus
  target : ClaimStatus
  kind : TransitionErrKind
deriving DecidableEq, Repr

/-- Embeds `validate_status_transition` from `src/app/models.py`. -/
def validate_status_transition (current_status target_status : ClaimStatus) :
    Except InvalidStatusTransitionError Unit :=
  if current_status = target_status then
    .error ⟨current_status, target_status, .alreadyInStatus⟩
  else if current_status ∈ TERMINAL_STATUSES then
    .error ⟨current_status, target_status, .terminalStatus⟩
  else if target_status ∈ CLAIM_STATUS_TRANSITIONS current_status then
    .ok ()
  else
    .error ⟨current_status, target_status, .notAllowed⟩

/-- Embeds `can_transition` from `src/app/models.py`. -/
def can_transition (current_status target_status : ClaimStatus) : Bool :=
  if current_status = target_status then false
  else if current_status ∈ TERMINAL_STATUSES then false
  else target_status ∈ CLAIM_STATUS_TRANSITIONS current_status

inductive AdjudicationStatus
  | unknown
  | approved
  | denied
  | pending
deriving DecidableEq, Repr

/-- Embeds `Practice` from `src/app/models.py` (SQLModel row). -/
structure Practice where
  id : String
  tenure_months : Int
  historical_clean_claim_rate : Rat
  payer_mix : String
  max_exposure_limit : Int
  current_exposure : Int
deriving DecidableEq, Repr

/-- Embeds `Claim` from `src/app/models.py` (SQLModel row); `submission_date` is a
day number. -/
structure Claim where
  claim_id : String
  practice_id : String
  payer : String
  procedure_code : String
  billed_amount : Int
  expected_allowed_amount : Int
  submission_date : Int
  adjudication_status : AdjudicationStatus
  underwriting_confidence_score : Rat
  funded_amount : Int
  status : ClaimStatus
  decline_reason_code : Option String
deriving DecidableEq, Repr

/-- Embeds `CapitalPool` from `src/app/models.py` (SQLModel row). -/
structure CapitalPool where
  id : String
  total_capital : Int
  available_capital : Int
  capital_allocated : Int
  capital_pending_settlement : Int
  capital_returned : Int
  total_days_outstanding : Int
  num_settled_claims : Int
deriving DecidableEq, Repr

/-- The Python exception channels of `src/app/ledger.py`: bare `assert`
failures, business `LedgerError`s (with either the exact constant source
message or a structured transition payload), and the fatal
`InvariantViolationError` subclass. -/
inductive PyError
  | assertionError
  | ledgerErrorMsg (msg : String)
  | ledgerErrorTransition (e : InvalidStatusTransitionError)
  | invariantViolation (msg : String)
deriving DecidableEq, Repr

/-- Embeds `check_pool_invariants` from `src/app/ledger.py`. -/
def check_pool_invariants (pool : CapitalPool) : Except PyError Unit :=
  if pool.available_capital < 0 then .error .assertionError
  else if pool.capital_allocated < 0 then .error .assertionError
  else if pool.capital_pending_settlement < 0 then .error .assertionError
  else if pool.capital_returned < 0 then .error .assertionError
  else if pool.available_capital ≠
      pool.total_capital - pool.capital_allocated + pool.capital_returned then
    .error (.invariantViolation "Capital pool invariant violated: available_capital mismatch")
  else if pool.capital_pending_settlement > pool.capital_allocated then
    .error (.invariantViolation "Capital pool invariant violated: pending_settlement > allocated")
  else .ok ()

/-- Embeds `check_practice_invariants` from `src/app/ledger.py`. -/
def check_practice_invariants (practice : Practice) : Except PyError Unit :=
  if practice.current_exposure < 0 then .error .assertionError
  else if practice.max_exposure_limit < 0 then .error .assertionError
  else if practice.current_exposure > practice.max_exposure_limit then
    .error (.invariantViolation "Practice invariant violated: current_exposure > max_exposure_limit")
  else .ok ()

/-- Embeds `check_claim_invariants` from `src/app/ledger.py`. -/
def check_claim_invariants (claim : Claim) : Except PyError Unit :=
  if claim.billed_amount < 0 then .error .assertionError
  else if claim.expected_allowed_amount < 0 then .error .assertionError
  else if claim.funded_amount < 0 then .error .assertionError
  else if claim.status = ClaimStatus.funded ∧ claim.funded_amount = 0 then
    .error (.invariantViolation "Claim invariant violated: funded but funded_amount is 0")
  else if claim.status = ClaimStatus.submitted ∧ claim.funded_amount > 0 then
    .error (.invariantViolation "Claim invariant violated: submitted but has funded_amount")
  else .ok ()

/-- Embeds `get_remaining_practice_exposure_limit` from `src/app/ledger.py`. -/
def get_remaining_practice_exposure_limit (practice : Practice) : Int :=
  max 0 (practice.max_exposure_limit - practice.current_exposure)

/-- The three rows a fund/settle call reads and mutates (the session lookups
by `pool_id` / `claim_id` / `claim.practice_id` are abstracted into direct
record access). -/
structure LedgerState where
  pool : CapitalPool
  practice : Practice
  claim : Claim
deriving DecidableEq, Repr

/-- Outcome of a Python call on mutable rows: normal return, or an exception
together with the in-memory state at the raise point. -/
inductive PyResult
  | ok (s : LedgerState)
  | raised (e : PyError) (s : LedgerState)
deriving DecidableEq, Repr

/-- Propagate an invariant-check failure against the current state. -/
def guardE (c : Except PyError Unit) (s : LedgerState) (k : PyResult) : PyResult :=
  match c with
  | .error e => .raised e s
  | .ok _ => k

/-- Embeds `fund_claim_atomic` from `src/app/ledger.py` lines 97-158. -/
def fund_claim_atomic (s : LedgerState) (funded_amount : Int) : PyResult :=
  if ¬ funded_amount > 0 then .raised .assertionError s
  else
    guardE (check_pool_invariants s.pool) s <|
    guardE (check_practice_invariants s.practice) s <|
    guardE (check_claim_invariants s.claim) s <|
    match validate_status_transition s.claim.status ClaimStatus.funded with
    | .error e => .raised (.ledgerErrorTransition e) s
    | .ok _ =>
      let remaining := get_remaining_practice_exposure_limit s.practice
      if funded_amount > remaining then
        .raised (.ledgerErrorMsg "Insufficient remaining practice exposure limit") s
      else if funded_amount > s.pool.available_capital then
        .raised (.ledgerErrorMsg "Insufficient pool available capital") s
      else
        let pool' := { s.pool with
          available_capital := s.pool.available_capital - funded_amount,
          capital_allocated := s.pool.capital_allocated + funded_amount,
          capital_pending_settlement := s.pool.capital_pending_settlement + funded_amount }
        let practice' := { s.practice with
          current_exposure := s.practice.current_exposure + funded_amount }
        let claim' := { s.claim with
          funded_amount := funded_amount,
          status := ClaimStatus.funded,
          decline_reason_code := none }
        let s' : LedgerState := ⟨pool', practice', claim'⟩
        guardE (check_pool_invariants pool') s' <|
        guardE (check_practice_invariants practice') s' <|
        guardE (check_claim_invariants claim') s' <|
        .ok s'

/-- Embeds `settle_claim_atomic` from `src/app/ledger.py` lines 161-246. -/
def settle_claim_atomic (s : LedgerState) (settlement_date settlement_amount : Int) :
    PyResult :=
  if ¬ settlement_amount ≥ 0 then .raised .assertionError s
  else
    guardE (check_pool_invariants s.pool) s <|
    guardE (check_practice_invariants s.practice) s <|
    guardE (check_claim_invariants s.claim) s <|
    let target_status :=
      if settlement_amount < s.claim.funded_amount then ClaimStatus.exception
      else ClaimStatus.reimbursed
    match validate_status_transition s.claim.status target_status with
    | .error e => .raised (.ledgerErrorTransition e) s
    | .ok _ =>
      let principal := s.claim.funded_amount
      if ¬ principal > 0 then .raised .assertionError s
      else if principal > s.pool.capital_pending_settlement then
        .raised (.invariantViolation "Pool pending settlement invariant violated") s
      else
        let days_outstanding := max 0 (settlement_date - s.claim.submission_date)
        let returned_principal := min principal settlement_amount
        let pool' := { s.pool with
          total_days_outstanding := s.pool.total_days_outstanding + days_outstanding,
          num_settled_claims := s.pool.num_settled_claims + 1,
          capital_pending_settlement := s.pool.capital_pending_settlement - principal,
          capital_allocated := s.pool.capital_allocated - principal,
          available_capital := s.pool.available_capital + returned_principal,
          capital_returned := s.pool.capital_returned + returned_principal }
        let claim' := { s.claim with status := target_status }
        let practice' := { s.practice with
          current_exposure := s.practice.current_exposure - principal }
        let s' : LedgerState := ⟨pool', practice', claim'⟩
        if practice'.current_exposure < 0 then
          .raised (.invariantViolation "Practice exposure invariant violated") s'
        else
          guardE (check_pool_invariants pool') s' <|
          guardE (check_practice_invariants practice') s' <|
          .ok s'

/-! Concrete fund/settle scenario from the spec (§8): shared by several
theorems below. -/

/-- The fresh 1,000,000-cent pool of the spec's concrete scenario. -/
def scenarioPool : CapitalPool :=
  { id := "pool-1", total_capital := 1000000, available_capital := 1000000,
    capital_allocated := 0, capital_pending_settlement := 0, capital_returned := 0,
    total_days_outstanding := 0, num_settled_claims := 0 }

/-- The 100,000-limit practice of the spec's concrete scenario. -/
def scenarioPractice : Practice :=
  { id := "prac-1", tenure_months := 24, historical_clean_claim_rate := mkRat 95 100,
    payer_mix := "Aetna:1.0", max_exposure_limit := 100000, current_exposure := 0 }

/-- The 80,000-cent claim of the spec's concrete scenario, in `underwriting`
status. -/
def scenarioClaim : Claim :=
  { claim_id := "clm-1", practice_id := "prac-1", payer := "Aetna",
    procedure_code := "D0120", billed_amount := 100000,
    expected_allowed_amount := 80000, submission_date := 0,
    adjudication_status := .unknown, underwriting_confidence_score := 0,
    funded_amount := 0, status := .underwriting, decline_reason_code := none }

def scenarioState : LedgerState := ⟨scenarioPool, scenarioPractice, scenarioClaim⟩

/-- The state the spec expects after funding 80,000 from `scenarioState`. -/
def scenarioFundedState : LedgerState where
  pool := { scenarioPool with
    available_capital := 920000
    capital_allocated := 80000
    capital_pending_settlement := 80000 }
  practice := { scenarioPractice with current_exposure := 80000 }
  claim := { scenarioClaim with funded_amount := 80000, status := .funded }

/-!
Part 2: the underwriting policy evaluator (`src/app/underwriting.py`).
Python `Set[str]` / `Dict[str, float]` become `List String` /
`List (String × Rat)`; the evaluator only tests membership, substring
containment and lookups, so list order is irrelevant to every reason code
except the procedure scan, which follows the claim's own code order exactly
as in the source.
-/

/-- Python `str.strip()`: drop whitespace from both ends (character-level
model of the source's byte-position implementation). -/
def py_strip (s : String) : String :=
  ⟨((s.data.dropWhile Char.isWhitespace).reverse.dropWhile Char.isWhitespace).reverse⟩

/-- Python `str.lower()` (ASCII case folding, which is all the evaluator's
inputs use). -/
def py_lower (s : String) : String :=
  ⟨s.data.map Char.toLower⟩

/-- Python `list.split(sep)` on a single-character separator: no collapsing
of empty fields, and the empty string yields one empty field. -/
def py_split_chars (sep : Char) : List Char → List (List Char)
  | [] => [[]]
  | c :: rest =>
    match py_split_chars sep rest with
    | [] => if c = sep then [[], [c]] else [[c]]
    | g :: gs => if c = sep then [] :: g :: gs else (c :: g) :: gs

/-- Python `str.split(sep)` for a one-character separator. -/
def py_split (sep : Char) (s : String) : List String :=
  (py_split_chars sep s.data).map fun cs => ⟨cs⟩

/-- Python's substring test `sub in s`. -/
def str_contains (s sub : String) : Bool :=
  (List.range (s.data.length + 1)).any fun i => sub.data.isPrefixOf (s.data.drop i)

/- The `DeclineReason` enum values from `src/app/underwriting.py`. -/
namespace DeclineReason

def payer_not_approved : String := "PAYER_NOT_APPROVED"

def payer_plan_not_supported : String := "PAYER_PLAN_NOT_SUPPORTED"

def plan_type_not_approved : String := "PLAN_TYPE_NOT_APPROVED"

def procedure_not_allowed : String := "PROCEDURE_NOT_ALLOWED"

def procedure_below_pay_rate_threshold : String := "PROCEDURE_PAY_RATE_BELOW_THRESHOLD"

def practice_tenure_too_low : String := "PRACTICE_TENURE_TOO_LOW"

def practice_history_insufficient : String := "PRACTICE_HISTORY_INSUFFICIENT"

def exceeds_practice_exposure_limit : String := "EXCEEDS_PRACTICE_EXPOSURE_LIMIT"

def insufficient_pool_liquidity : String := "INSUFFICIENT_POOL_LIQUIDITY"

end DeclineReason

/-- Embeds `UnderwritingDecision` from `src/app/underwriting.py`. -/
structure UnderwritingDecision where
  approved : Bool
  funded_amount : Int
  reason_code : Option String
deriving DecidableEq, Repr

/-- Embeds `UnderwritingPolicy` from `src/app/underwriting.py`. -/
structure UnderwritingPolicy where
  approved_payers : List String
  excluded_plan_keywords : List String
  allowed_procedures : List String
  procedure_pay_rate_threshold : Rat
  min_practice_tenure_months : Int
  min_practice_clean_claim_rate : Rat
  procedure_historical_pay_rate : List (String × Rat)
deriving DecidableEq, Repr

/-- The per-procedure-code loop inside `underwrite_claim`
(`src/app/underwriting.py` lines 63-74): for each code, in claim order,
first the allowed-set membership, then the historical pay-rate check. -/
def procedure_scan (policy : UnderwritingPolicy) : List String → Option String
  | [] => none
  | code :: rest =>
    if py_strip code ∉ policy.allowed_procedures then
      some DeclineReason.procedure_not_allowed
    else
      match policy.procedure_historical_pay_rate.lookup (py_strip code) with
      | none => some DeclineReason.procedure_below_pay_rate_threshold
      | some pay_rate =>
        if pay_rate < policy.procedure_pay_rate_threshold then
          some DeclineReason.procedure_below_pay_rate_threshold
        else procedure_scan policy rest

/-- Embeds `underwrite_claim` from `src/app/underwriting.py`. -/
def underwrite_claim (claim : Claim) (practice : Practice)
    (policy : UnderwritingPolicy)
    (remaining_practice_exposure_limit pool_available_capital : Int) :
    UnderwritingDecision :=
  let payer_normalized := py_strip claim.payer
  if payer_normalized ∉ policy.approved_payers then
    ⟨false, 0, some DeclineReason.payer_not_approved⟩
  else
    let payer_lower := py_lower payer_normalized
    if policy.excluded_plan_keywords.any (fun kw => str_contains payer_lower (py_lower kw)) then
      ⟨false, 0, some DeclineReason.payer_plan_not_supported⟩
    else
      match procedure_scan policy (py_split ';' claim.procedure_code) with
      | some reason => ⟨false, 0, some reason⟩
      | none =>
        if practice.tenure_months < policy.min_practice_tenure_months then
          ⟨false, 0, some DeclineReason.practice_tenure_too_low⟩
        else if practice.historical_clean_claim_rate < policy.min_practice_clean_claim_rate then
          ⟨false, 0, some DeclineReason.practice_history_insufficient⟩
        else if claim.expected_allowed_amount > remaining_practice_exposure_limit then
          ⟨false, 0, some DeclineReason.exceeds_practice_exposure_limit⟩
        else
          let funded_amount := claim.expected_allowed_amount
          if funded_amount > pool_available_capital then
            ⟨false, 0, some DeclineReason.insufficient_pool_liquidity⟩
          else ⟨true, funded_amount, none⟩

/-- A small policy used by concrete underwriting scenarios: procedures
"D0120" and "D1110" are allowed, but only "D0120" has a known pay rate, and
it is below the 1/2 threshold. -/
def scanPolicy : UnderwritingPolicy :=
  { approved_payers := ["Aetna"]
    excluded_plan_keywords := []
    allowed_procedures := ["D0120", "D1110"]
    procedure_pay_rate_threshold := mkRat 1 2
    min_practice_tenure_months := 12
    min_practice_clean_claim_rate := mkRat 9 10
    procedure_historical_pay_rate := [("D0120", mkRat 1 10)] }


/-!
Part 3: the double-entry ledger service (`src/app/models/ledger.py`,
`src/app/services/ledger.py`) and the payment-intent layer
(`src/app/models/payment.py`, `src/app/models/claim.py`,
`src/app/services/payments.py`).

UUID primary keys become `Nat` identifiers; `uuid4()` generation for fresh
payment intents becomes a `next_intent_id` counter in the database state.
Ledger-entry rows carry no surrogate id because the service never reads one.
The database session becomes an explicit `Db` record threaded through the
operations; `db.rollback()` on a failed creation is modelled by returning an
error without the partial state.
-/

inductive LedgerAccountType
  | CAPITAL_CASH
  | PAYMENT_CLEARING
  | PRACTICE_PAYABLE
deriving DecidableEq, Repr

inductive LedgerEntryDirection
  | DEBIT
  | CREDIT
deriving DecidableEq, Repr

inductive LedgerEntryStatus
  | PENDING
  | POSTED
  | REVERSED
deriving DecidableEq, Repr

inductive LedgerEntryRelatedType
  | PAYMENT_INTENT
  | ADJUSTMENT
deriving DecidableEq, Repr

/-- Embeds `LedgerAccount` row from `src/app/models/ledger.py`. -/
structure LedgerAccount where
  id : Nat
  account_type : LedgerAccountType
  currency : String
  practice_id : Option Nat
deriving DecidableEq, Repr

/-- Embeds `LedgerEntry` row from `src/app/models/ledger.py`. -/
structure LedgerEntry where
  account_id : Nat
  related_type : LedgerEntryRelatedType
  related_id : Nat
  claim_id : Option Nat
  direction : LedgerEntryDirection
  amount_cents : Int
  status : LedgerEntryStatus
  idempotency_key : String
deriving DecidableEq, Repr

inductive PaymentIntentStatus
  | QUEUED
  | SENT
  | CONFIRMED
  | FAILED
deriving DecidableEq, Repr

/-- Embeds `PaymentIntent` row from `src/app/models/payment.py` (timestamps,
provider reference and failure fields are not read by the embedded
operations and are omitted). -/
structure PaymentIntent where
  id : Nat
  claim_id : Nat
  practice_id : Nat
  amount_cents : Int
  currency : String
  status : PaymentIntentStatus
  idempotency_key : String
deriving DecidableEq, Repr

/-- Embeds `PaymentIntent.generate_idempotency_key` from `src/app/models/payment.py`. -/
def generate_idempotency_key (claim_id : Nat) : String :=
  "claim:" ++ Nat.repr claim_id ++ ":payment:v1"

/-- The V2 `ClaimStatus` enum from `src/app/models/claim.py`. -/
inductive ClaimStatusV2
  | NEW
  | NEEDS_REVIEW
  | APPROVED
  | PAID
  | COLLECTING
  | CLOSED
  | DECLINED
  | PAYMENT_EXCEPTION
deriving DecidableEq, Repr

/-- The V2 `Claim` row from `src/app/models/claim.py`, restricted to the
fields the payment path reads. -/
structure ClaimV2 where
  id : Nat
  practice_id : Nat
  payer : String
  amount_cents : Int
  status : ClaimStatusV2
  payment_exception : Bool
  exception_code : Option String
deriving DecidableEq, Repr

/-- The rows visible to the ledger/payments services, plus the fresh-id
counter standing in for `uuid4()`. -/
structure Db where
  accounts : List LedgerAccount
  entries : List LedgerEntry
  intents : List PaymentIntent
  next_intent_id : Nat
deriving DecidableEq, Repr

/-- The exception channels of `src/app/services/ledger.py`: `LedgerError`
and its subclasses `InsufficientFundsError` and `DuplicateEntryError`. -/
inductive SvcError
  | ledgerError (msg : String)
  | insufficientFundsError
  | duplicateEntryError
deriving DecidableEq, Repr

/-- Embeds `LedgerService.get_account` from `src/app/services/ledger.py` (first row
matching type, practice and currency). -/
def get_account (db : Db) (account_type : LedgerAccountType)
    (practice_id : Option Nat := none) (currency : String := "USD") :
    Option LedgerAccount :=
  db.accounts.find? fun a =>
    a.account_type == account_type && a.practice_id == practice_id &&
      a.currency == currency

/-- Embeds `LedgerService.compute_balance` from `src/app/services/ledger.py`:
Σ(CREDIT amounts) − Σ(DEBIT amounts) over the account's entries, restricted
to non-REVERSED entries unless a status filter is given. -/
def compute_balance (db : Db) (account : LedgerAccount)
    (status_filter : Option LedgerEntryStatus := none) : Int :=
  ((db.entries.filter fun e =>
      e.account_id == account.id &&
        match status_filter with
        | some f => e.status == f
        | none => e.status != LedgerEntryStatus.REVERSED).map
    fun e =>
      if e.direction = LedgerEntryDirection.CREDIT then e.amount_cents
      else -e.amount_cents).sum

/-- Embeds `LedgerService.get_available_capital` from `src/app/services/ledger.py`. -/
def get_available_capital (db : Db) (currency : String := "USD") : Int :=
  match get_account db LedgerAccountType.CAPITAL_CASH none currency with
  | none => 0
  | some account => compute_balance db account

/-- Embeds `LedgerService.create_entry` from `src/app/services/ledger.py`. -/
def create_entry (db : Db) (account : LedgerAccount)
    (direction : LedgerEntryDirection) (amount_cents : Int)
    (related_type : LedgerEntryRelatedType) (related_id : Nat)
    (idempotency_key : String) (claim_id : Option Nat := none)
    (status : LedgerEntryStatus := LedgerEntryStatus.PENDING) :
    Except SvcError (LedgerEntry × Db) :=
  if amount_cents ≤ 0 then .error (.ledgerError "Amount must be positive")
  else if db.entries.any (fun e => e.idempotency_key == idempotency_key) then
    .error .duplicateEntryError
  else
    let entry : LedgerEntry :=
      { account_id := account.id, related_type := related_type,
        related_id := related_id, claim_id := claim_id,
        direction := direction, amount_cents := amount_cents,
        status := status, idempotency_key := idempotency_key }
    .ok (entry, { db with entries := db.entries ++ [entry] })

/-- Embeds `LedgerService.reserve_funds` from `src/app/services/ledger.py`. -/
def reserve_funds (db : Db) (payment_intent : PaymentIntent)
    (amount_cents : Int) : Except SvcError (LedgerEntry × LedgerEntry × Db) := do
  let some cash_account := get_account db LedgerAccountType.CAPITAL_CASH
    | .error (.ledgerError "CAPITAL_CASH account not found")
  let some clearing_account := get_account db LedgerAccountType.PAYMENT_CLEARING
    | .error (.ledgerError "PAYMENT_CLEARING account not found")
  let available := compute_balance db cash_account
  if available < amount_cents then .error .insufficientFundsError
  else do
    let debit_key := "payment:" ++ Nat.repr payment_intent.id ++ ":reserve:debit"
    let credit_key := "payment:" ++ Nat.repr payment_intent.id ++ ":reserve:credit"
    let (debit_entry, db1) ← create_entry db cash_account
      LedgerEntryDirection.DEBIT amount_cents
      LedgerEntryRelatedType.PAYMENT_INTENT payment_intent.id debit_key
      (some payment_intent.claim_id) LedgerEntryStatus.PENDING
    let (credit_entry, db2) ← create_entry db1 clearing_account
      LedgerEntryDirection.CREDIT amount_cents
      LedgerEntryRelatedType.PAYMENT_INTENT payment_intent.id credit_key
      (some payment_intent.claim_id) LedgerEntryStatus.PENDING
    .ok (debit_entry, credit_entry, db2)

/-- Embeds `LedgerService.release_reservation` from `src/app/services/ledger.py`:
flip the intent's PENDING entries to REVERSED, then post a POSTED pair
moving the amount from PAYMENT_CLEARING back to CAPITAL_CASH. -/
def release_reservation (db : Db) (payment_intent : PaymentIntent) :
    Except SvcError (LedgerEntry × LedgerEntry × Db) := do
  let flipped := db.entries.map fun e =>
    if e.related_id == payment_intent.id &&
        e.related_type == LedgerEntryRelatedType.PAYMENT_INTENT &&
        e.status == LedgerEntryStatus.PENDING then
      { e with status := LedgerEntryStatus.REVERSED }
    else e
  let db0 : Db := { db with entries := flipped }
  let some cash_account := get_account db0 LedgerAccountType.CAPITAL_CASH
    | .error (.ledgerError "CAPITAL_CASH account not found")
  let some clearing_account := get_account db0 LedgerAccountType.PAYMENT_CLEARING
    | .error (.ledgerError "PAYMENT_CLEARING account not found")
  let debit_key := "payment:" ++ Nat.repr payment_intent.id ++ ":release:debit"
  let credit_key := "payment:" ++ Nat.repr payment_intent.id ++ ":release:credit"
  let (debit_entry, db1) ← create_entry db0 clearing_account
    LedgerEntryDirection.DEBIT payment_intent.amount_cents
    LedgerEntryRelatedType.PAYMENT_INTENT payment_intent.id debit_key
    (some payment_intent.claim_id) LedgerEntryStatus.POSTED
  let (credit_entry, db2) ← create_entry db1 cash_account
    LedgerEntryDirection.CREDIT payment_intent.amount_cents
    LedgerEntryRelatedType.PAYMENT_INTENT payment_intent.id credit_key
    (some payment_intent.claim_id) LedgerEntryStatus.POSTED
  .ok (debit_entry, credit_entry, db2)

/-- The exception channels of `src/app/services/payments.py`. -/
inductive PayError
  | invalidClaimStateError
  | paymentAlreadyExistsError
  | insufficientFundsError
  | ledgerError (msg : String)
  | paymentError (msg : String)
deriving DecidableEq, Repr

/-- Embeds `PaymentOrchestrationService.create_payment_intent` from
`src/app/services/payments.py`.  The `IntegrityError` race branch cannot
fire in this single-writer model; a `DuplicateEntryError` from the
reservation is swallowed exactly as in the source (the intent stands without
new ledger entries); audit logging is an external collaborator. -/
def create_payment_intent (db : Db) (claim : ClaimV2) :
    Except PayError (PaymentIntent × Db) :=
  if claim.status ≠ ClaimStatusV2.APPROVED then .error .invalidClaimStateError
  else
    let idempotency_key := generate_idempotency_key claim.id
    match db.intents.find? (fun i => i.idempotency_key == idempotency_key) with
    | some existing => .ok (existing, db)
    | none =>
      match db.intents.find? (fun i => i.claim_id == claim.id) with
      | some _ => .error .paymentAlreadyExistsError
      | none =>
        let payment_intent : PaymentIntent :=
          { id := db.next_intent_id, claim_id := claim.id,
            practice_id := claim.practice_id,
            amount_cents := claim.amount_cents, currency := "USD",
            status := PaymentIntentStatus.QUEUED,
            idempotency_key := idempotency_key }
        let db1 : Db := { db with
          intents := db.intents ++ [payment_intent],
          next_intent_id := db.next_intent_id + 1 }
        match reserve_funds db1 payment_intent payment_intent.amount_cents with
        | .error .insufficientFundsError => .error .insufficientFundsError
        | .error .duplicateEntryError => .ok (payment_intent, db1)
        | .error (.ledgerError msg) => .error (.ledgerError msg)
        | .ok (_, _, db2) => .ok (payment_intent, db2)

/-!
Part 4: theorems settling the claims.
-/

instance {e a : Type} [DecidableEq e] [DecidableEq a] : DecidableEq (Except e a)
  | .ok x, .ok y =>
    if h : x = y then .isTrue (h ▸ rfl) else .isFalse fun hc => h (Except.ok.inj hc)
  | .error x, .error y =>
    if h : x = y then .isTrue (h ▸ rfl) else .isFalse fun hc => h (Except.error.inj hc)
  | .ok _, .error _ => .isFalse fun hc => Except.noConfusion hc
  | .error _, .ok _ => .isFalse fun hc => Except.noConfusion hc

/-- The in-memory state `settle_claim_atomic scenarioFundedState 14 80000`
has built at the moment its final `check_pool_invariants` runs: every field
update of the source has been applied. -/
def settleAttemptState : LedgerState where
  pool := { scenarioPool with
    available_capital := 1000000
    capital_allocated := 0
    capital_pending_settlement := 0
    capital_returned := 80000
    total_days_outstanding := 14
    num_settled_claims := 1 }
  practice := scenarioPractice
  claim := { scenarioClaim with funded_amount := 80000, status := .reimbursed }

/-- C4: from the fresh 1,000,000 pool, the 100,000-limit practice and the
80,000 claim in `underwriting` status (with a stale decline reason),
`fund_claim_atomic` with `funded_amount = 80000` returns normally and leaves
`available_capital = 920000`, `capital_allocated = 80000`,
`capital_pending_settlement = 80000`, `current_exposure = 80000`,
`status = funded`, `funded_amount = 80000` and the decline reason cleared. -/
theorem fund_concrete_scenario_ok :
    fund_claim_atomic
      ⟨scenarioPool, scenarioPractice,
        { scenarioClaim with decline_reason_code := some DeclineReason.payer_not_approved }⟩
      80000 = .ok scenarioFundedState ∧
    scenarioFundedState.pool.available_capital = 920000 ∧
    scenarioFundedState.pool.capital_allocated = 80000 ∧
    scenarioFundedState.pool.capital_pending_settlement = 80000 ∧
    scenarioFundedState.practice.current_exposure = 80000 ∧
    scenarioFundedState.claim.status = ClaimStatus.funded ∧
    scenarioFundedState.claim.funded_amount = 80000 ∧
    scenarioFundedState.claim.decline_reason_code = none := by decide

/-- C1: settling the funded concrete scenario with
`settlement_amount = 80000` applies exactly the field updates the spec
expects (`status = reimbursed`, `pending = 0`, `allocated = 0`,
`available = 1000000`, `exposure = 0`) but then raises
`InvariantViolationError` from the post-mutation `check_pool_invariants`,
because `capital_returned` has grown to 80000 and
`available_capital == total_capital - capital_allocated + capital_returned`
no longer holds; the call never completes. -/
theorem settle_concrete_scenario_raises :
    settle_claim_atomic scenarioFundedState 14 80000 =
      .raised (.invariantViolation "Capital pool invariant violated: available_capital mismatch")
        settleAttemptState ∧
    settleAttemptState.claim.status = ClaimStatus.reimbursed ∧
    settleAttemptState.pool.capital_pending_settlement = 0 ∧
    settleAttemptState.pool.capital_allocated = 0 ∧
    settleAttemptState.pool.available_capital = 1000000 ∧
    settleAttemptState.practice.current_exposure = 0 := by decide

/-- C2: the pool invariant `available == total - allocated + returned` is
not preserved by the fund-then-settle sequence of the spec's own concrete
scenario: the fund call preserves it, but the settle call's mutations leave
`available_capital = 1000000` while
`total - allocated + returned = 1080000`, which the source itself detects,
raising `InvariantViolationError` — so no settle call in any fund/settle
sequence can complete with the invariant intact. -/
theorem pool_invariant_broken_by_settle :
    fund_claim_atomic scenarioState 80000 = .ok scenarioFundedState ∧
    check_pool_invariants scenarioFundedState.pool = .ok () ∧
    settle_claim_atomic scenarioFundedState 14 80000 =
      .raised (.invariantViolation "Capital pool invariant violated: available_capital mismatch")
        settleAttemptState ∧
    settleAttemptState.pool.available_capital ≠
      settleAttemptState.pool.total_capital - settleAttemptState.pool.capital_allocated +
        settleAttemptState.pool.capital_returned := by decide

/-- Success of the pool invariant check forces a nonnegative available
balance (the check's own first assertion). -/
theorem available_nonneg_of_pool_ok (pool : CapitalPool)
    (h : check_pool_invariants pool = .ok ()) : 0 ≤ pool.available_capital := by
  by_contra hneg
  push_neg at hneg
  unfold check_pool_invariants at h
  rw [if_pos hneg] at h
  exact Except.noConfusion h

/-- C10: a non-positive amount at the fund/settle interface fails the
leading bare `assert` — an `AssertionError`, not a `LedgerError` — before
any state is read or mutated, for every starting state. -/
theorem nonpositive_amount_assertion (s : LedgerState) (amt : Int) :
    (amt ≤ 0 → fund_claim_atomic s amt = .raised .assertionError s) ∧
    (∀ d : Int, amt < 0 → settle_claim_atomic s d amt = .raised .assertionError s) := by
  constructor
  · intro h
    unfold fund_claim_atomic
    rw [if_pos (by omega : ¬ amt > 0)]
  · intro d h
    unfold settle_claim_atomic
    rw [if_pos (by omega : ¬ amt ≥ 0)]

theorem nonpositive_amount_assertion_witness :
    fund_claim_atomic scenarioState 0 = .raised .assertionError scenarioState ∧
    settle_claim_atomic scenarioState 14 (-5) = .raised .assertionError scenarioState :=
  ⟨(nonpositive_amount_assertion scenarioState 0).1 (by decide),
   (nonpositive_amount_assertion scenarioState (-5)).2 14 (by decide)⟩

/-- C5: on a well-formed state whose claim may legally move to `funded`, a
requested amount above the remaining practice exposure limit is rejected
with `LedgerError("Insufficient remaining practice exposure limit")`, and an
amount within the limit but above the pool's available capital is rejected
with `LedgerError("Insufficient pool available capital")`; both rejections
happen before any mutation, so the state is returned unchanged. -/
theorem fund_limit_errors (s : LedgerState) (amt : Int)
    (hpool : check_pool_invariants s.pool = .ok ())
    (hprac : check_practice_invariants s.practice = .ok ())
    (hclaim : check_claim_invariants s.claim = .ok ())
    (htrans : validate_status_transition s.claim.status ClaimStatus.funded = .ok ()) :
    (amt > get_remaining_practice_exposure_limit s.practice →
      fund_claim_atomic s amt =
        .raised (.ledgerErrorMsg "Insufficient remaining practice exposure limit") s) ∧
    (amt ≤ get_remaining_practice_exposure_limit s.practice →
      amt > s.pool.available_capital →
      fund_claim_atomic s amt =
        .raised (.ledgerErrorMsg "Insufficient pool available capital") s) := by
  have hrem : (0:Int) ≤ get_remaining_practice_exposure_limit s.practice :=
    le_max_left 0 _
  have havail : (0:Int) ≤ s.pool.available_capital :=
    available_nonneg_of_pool_ok s.pool hpool
  constructor
  · intro hgt
    have hpos : amt > 0 := lt_of_le_of_lt hrem hgt
    unfold fund_claim_atomic
    rw [if_neg (not_not_intro hpos), hpool, hprac, hclaim]
    simp only [guardE]
    split
    · next e heq =>
      rw [htrans] at heq
      exact Except.noConfusion heq
    · next heq =>
      rw [if_pos hgt]
  · intro hle hgt
    have hpos : amt > 0 := lt_of_le_of_lt havail hgt
    unfold fund_claim_atomic
    rw [if_neg (not_not_intro hpos), hpool, hprac, hclaim]
    simp only [guardE]
    split
    · next e heq =>
      rw [htrans] at heq
      exact Except.noConfusion heq
    · next heq =>
      rw [if_neg (not_lt_of_le hle), if_pos hgt]

/-- A solvent-but-small pool behind a large practice limit, for the
pool-capital branch of the C5 witness. -/
def lowPoolState : LedgerState where
  pool := { scenarioPool with total_capital := 500000, available_capital := 500000 }
  practice := { scenarioPractice with max_exposure_limit := 2000000 }
  claim := scenarioClaim

theorem fund_limit_errors_witness :
    (150000 : Int) > get_remaining_practice_exposure_limit scenarioPractice ∧
    fund_claim_atomic scenarioState 150000 =
      .raised (.ledgerErrorMsg "Insufficient remaining practice exposure limit") scenarioState ∧
    fund_claim_atomic lowPoolState 600000 =
      .raised (.ledgerErrorMsg "Insufficient pool available capital") lowPoolState :=
  ⟨by decide,
   (fund_limit_errors scenarioState 150000 (by decide) (by decide) (by decide)
      (by decide)).1 (by decide),
   (fund_limit_errors lowPoolState 600000 (by decide) (by decide) (by decide)
      (by decide)).2 (by decide) (by decide)⟩

/-- A successful `create_entry` returns an entry bearing the requested
idempotency key and appends exactly that entry to the journal. -/
theorem create_entry_ok_spec (db : Db) (account : LedgerAccount)
    (direction : LedgerEntryDirection) (amount_cents : Int)
    (related_type : LedgerEntryRelatedType) (related_id : Nat)
    (idempotency_key : String) (claim_id : Option Nat)
    (status : LedgerEntryStatus) (e : LedgerEntry) (db1 : Db)
    (h : create_entry db account direction amount_cents related_type related_id
      idempotency_key claim_id status = .ok (e, db1)) :
    e.idempotency_key = idempotency_key ∧ db1.entries = db.entries ++ [e] := by
  unfold create_entry at h
  split_ifs at h with h1 h2
  obtain ⟨he, hdb⟩ := Prod.mk.injEq .. ▸ Except.ok.inj h
  constructor
  · rw [← he]
  · rw [← hdb, ← he]

/-- The session state after a `create_entry` call: the new state on
success, the unchanged input state when the call raises (no `db.add` runs
before either raise in the source). -/
def create_entry_state (db : Db) (account : LedgerAccount)
    (direction : LedgerEntryDirection) (amount_cents : Int)
    (related_type : LedgerEntryRelatedType) (related_id : Nat)
    (idempotency_key : String) (claim_id : Option Nat)
    (status : LedgerEntryStatus) : Db :=
  match create_entry db account direction amount_cents related_type related_id
      idempotency_key claim_id status with
  | .ok (_, db') => db'
  | .error _ => db

/-- C6: once a `create_entry` call with some idempotency key has succeeded,
any later `create_entry` with the same key (and positive amount) raises
`DuplicateEntryError`, adds no entry, and leaves every account balance —
under every status filter — exactly as the first call left it. -/
theorem create_entry_duplicate (db : Db) (a1 a2 : LedgerAccount)
    (d1 d2 : LedgerEntryDirection) (amt1 amt2 : Int)
    (rt1 rt2 : LedgerEntryRelatedType) (rid1 rid2 : Nat) (key : String)
    (cid1 cid2 : Option Nat) (st1 st2 : LedgerEntryStatus)
    (e : LedgerEntry) (db1 : Db)
    (hfirst : create_entry db a1 d1 amt1 rt1 rid1 key cid1 st1 = .ok (e, db1))
    (hamt2 : amt2 > 0) :
    create_entry db1 a2 d2 amt2 rt2 rid2 key cid2 st2 =
      .error .duplicateEntryError ∧
    ∀ (account : LedgerAccount) (sf : Option LedgerEntryStatus),
      compute_balance (create_entry_state db1 a2 d2 amt2 rt2 rid2 key cid2 st2)
          account sf =
        compute_balance db1 account sf := by
  obtain ⟨hkey, hentries⟩ := create_entry_ok_spec db a1 d1 amt1 rt1 rid1 key cid1 st1 e db1 hfirst
  have hany : (db1.entries.any fun x => x.idempotency_key == key) = true := by
    rw [hentries]
    simp [List.any_append, hkey]
  have hdup : create_entry db1 a2 d2 amt2 rt2 rid2 key cid2 st2 =
      .error .duplicateEntryError := by
    unfold create_entry
    rw [if_neg (by omega : ¬ amt2 ≤ 0), if_pos hany]
  refine ⟨hdup, fun account sf => ?_⟩
  unfold create_entry_state
  rw [hdup]

def c6Account : LedgerAccount :=
  { id := 5, account_type := .CAPITAL_CASH, currency := "USD", practice_id := none }

def c6Db : Db := { accounts := [c6Account], entries := [], intents := [], next_intent_id := 0 }

def c6Entry : LedgerEntry :=
  { account_id := 5, related_type := .ADJUSTMENT, related_id := 1,
    claim_id := none, direction := .CREDIT, amount_cents := 1000,
    status := .POSTED, idempotency_key := "k1" }

def c6Db1 : Db := { c6Db with entries := [c6Entry] }

theorem create_entry_duplicate_witness :
    create_entry c6Db1 c6Account .DEBIT 400 .ADJUSTMENT 2 "k1" none .POSTED =
      .error .duplicateEntryError ∧
    compute_balance (create_entry_state c6Db1 c6Account .DEBIT 400 .ADJUSTMENT 2 "k1" none .POSTED)
        c6Account none =
      compute_balance c6Db1 c6Account none :=
  ⟨(create_entry_duplicate c6Db c6Account c6Account .CREDIT .DEBIT 1000 400
      .ADJUSTMENT .ADJUSTMENT 1 2 "k1" none none .POSTED .POSTED c6Entry c6Db1
      (by decide) (by decide)).1,
   (create_entry_duplicate c6Db c6Account c6Account .CREDIT .DEBIT 1000 400
      .ADJUSTMENT .ADJUSTMENT 1 2 "k1" none none .POSTED .POSTED c6Entry c6Db1
      (by decide) (by decide)).2 c6Account none⟩

def c3CashAccount : LedgerAccount :=
  { id := 1, account_type := .CAPITAL_CASH, currency := "USD", practice_id := none }

def c3ClearingAccount : LedgerAccount :=
  { id := 2, account_type := .PAYMENT_CLEARING, currency := "USD", practice_id := none }

/-- Seed capital: a POSTED 50,000-cent credit on CAPITAL_CASH. -/
def c3SeedEntry : LedgerEntry :=
  { account_id := 1, related_type := .ADJUSTMENT, related_id := 0,
    claim_id := none, direction := .CREDIT, amount_cents := 50000,
    status := .POSTED, idempotency_key := "seed:capital" }

def c3Db : Db :=
  { accounts := [c3CashAccount, c3ClearingAccount], entries := [c3SeedEntry],
    intents := [], next_intent_id := 8 }

def c3Intent : PaymentIntent :=
  { id := 7, claim_id := 42, practice_id := 3, amount_cents := 10000,
    currency := "USD", status := .QUEUED,
    idempotency_key := generate_idempotency_key 42 }

def c3ReserveDebit : LedgerEntry :=
  { account_id := 1, related_type := .PAYMENT_INTENT, related_id := 7,
    claim_id := some 42, direction := .DEBIT, amount_cents := 10000,
    status := .PENDING, idempotency_key := "payment:7:reserve:debit" }

def c3ReserveCredit : LedgerEntry :=
  { account_id := 2, related_type := .PAYMENT_INTENT, related_id := 7,
    claim_id := some 42, direction := .CREDIT, amount_cents := 10000,
    status := .PENDING, idempotency_key := "payment:7:reserve:credit" }

def c3DbAfterReserve : Db :=
  { c3Db with entries := [c3SeedEntry, c3ReserveDebit, c3ReserveCredit] }

def c3ReleaseDebit : LedgerEntry :=
  { account_id := 2, related_type := .PAYMENT_INTENT, related_id := 7,
    claim_id := some 42, direction := .DEBIT, amount_cents := 10000,
    status := .POSTED, idempotency_key := "payment:7:release:debit" }

def c3ReleaseCredit : LedgerEntry :=
  { account_id := 1, related_type := .PAYMENT_INTENT, related_id := 7,
    claim_id := some 42, direction := .CREDIT, amount_cents := 10000,
    status := .POSTED, idempotency_key := "payment:7:release:credit" }

def c3DbAfterRelease : Db :=
  { c3Db with entries :=
      [c3SeedEntry,
       { c3ReserveDebit with status := .REVERSED },
       { c3ReserveCredit with status := .REVERSED },
       c3ReleaseDebit, c3ReleaseCredit] }

/-- C3: after a single `reserve_funds` of 10,000 cents and a
`release_reservation`, the CAPITAL_CASH balance does NOT return to its
pre-reservation value: the release both reverses the PENDING pair (removing
the reservation debit from the balance) and posts a compensating POSTED
credit, so CAPITAL_CASH ends at 60,000 — pre-reservation value plus the
amount — and PAYMENT_CLEARING ends at −10,000 instead of 0. -/
theorem release_reservation_inflates_cash :
    compute_balance c3Db c3CashAccount none = 50000 ∧
    compute_balance c3Db c3ClearingAccount none = 0 ∧
    reserve_funds c3Db c3Intent 10000 =
      .ok (c3ReserveDebit, c3ReserveCredit, c3DbAfterReserve) ∧
    compute_balance c3DbAfterReserve c3CashAccount none = 40000 ∧
    release_reservation c3DbAfterReserve c3Intent =
      .ok (c3ReleaseDebit, c3ReleaseCredit, c3DbAfterRelease) ∧
    compute_balance c3DbAfterRelease c3CashAccount none = 60000 ∧
    compute_balance c3DbAfterRelease c3ClearingAccount none = -10000 ∧
    (60000 : Int) ≠ 50000 ∧ (-10000 : Int) ≠ 0 := by decide

def c9Claim : ClaimV2 :=
  { id := 42, practice_id := 3, payer := "Aetna", amount_cents := 50000,
    status := .APPROVED, payment_exception := false, exception_code := none }

def c9Db : Db :=
  { accounts := [c3CashAccount, c3ClearingAccount], entries := [c3SeedEntry],
    intents := [], next_intent_id := 100 }

def c9ExpectedIntent : PaymentIntent :=
  { id := 100, claim_id := 42, practice_id := 3, amount_cents := 50000,
    currency := "USD", status := .QUEUED,
    idempotency_key := "claim:42:payment:v1" }

def c9ReserveDebit : LedgerEntry :=
  { account_id := 1, related_type := .PAYMENT_INTENT, related_id := 100,
    claim_id := some 42, direction := .DEBIT, amount_cents := 50000,
    status := .PENDING, idempotency_key := "payment:100:reserve:debit" }

def c9ReserveCredit : LedgerEntry :=
  { account_id := 2, related_type := .PAYMENT_INTENT, related_id := 100,
    claim_id := some 42, direction := .CREDIT, amount_cents := 50000,
    status := .PENDING, idempotency_key := "payment:100:reserve:credit" }

def c9Db1 : Db :=
  { accounts := [c3CashAccount, c3ClearingAccount],
    entries := [c3SeedEntry, c9ReserveDebit, c9ReserveCredit],
    intents := [c9ExpectedIntent], next_intent_id := 101 }

/-- C9: for the APPROVED claim with id 42 the payment idempotency key is
exactly "claim:42:payment:v1"; the first `create_payment_intent` creates one
intent and reserves funds (one CAPITAL_CASH debit entry), and a second call
finds the intent by that key and returns the same intent id with the
database unchanged — still exactly one CAPITAL_CASH debit entry. -/
theorem payment_intent_idempotent :
    generate_idempotency_key 42 = "claim:42:payment:v1" ∧
    create_payment_intent c9Db c9Claim = .ok (c9ExpectedIntent, c9Db1) ∧
    create_payment_intent c9Db1 c9Claim = .ok (c9ExpectedIntent, c9Db1) ∧
    (c9Db1.entries.filter fun e =>
        e.account_id == c3CashAccount.id &&
          e.direction == LedgerEntryDirection.DEBIT).length = 1 := by decide

/-- Codes that pass both per-code checks are transparent to the procedure
scan. -/
theorem procedure_scan_prefix_pass (policy : UnderwritingPolicy)
    (pre rest : List String)
    (hpre : ∀ x ∈ pre, py_strip x ∈ policy.allowed_procedures ∧
      ∃ r, policy.procedure_historical_pay_rate.lookup (py_strip x) = some r ∧
        ¬ r < policy.procedure_pay_rate_threshold) :
    procedure_scan policy (pre ++ rest) = procedure_scan policy rest := by
  induction pre with
  | nil => rfl
  | cons a as ih =>
    obtain ⟨ha, r, hr, hnr⟩ := hpre a (List.mem_cons_self a as)
    have hrest := ih fun x hx => hpre x (List.mem_cons_of_mem a hx)
    simp only [List.cons_append, procedure_scan]
    rw [if_neg (not_not_intro ha), hr]
    simp only []
    rw [if_neg hnr]
    exact hrest

def c7Claim : Claim := { scenarioClaim with procedure_code := "D0120;NOPE" }

/-- C7 counterexample: under `scanPolicy` the claim lists "D0120" (allowed,
pay rate 1/10 below the 1/2 threshold) before "NOPE" (not allowed); the
claim's procedure-code list thus contains a code outside the allowed set,
yet the decision's reason is PROCEDURE_PAY_RATE_BELOW_THRESHOLD, not
PROCEDURE_NOT_ALLOWED: the two checks are interleaved per code, not staged. -/
theorem underwrite_not_allowed_not_reported :
    py_split ';' c7Claim.procedure_code = ["D0120", "NOPE"] ∧
    "NOPE" ∉ scanPolicy.allowed_procedures ∧
    "D0120" ∈ scanPolicy.allowed_procedures ∧
    scanPolicy.procedure_historical_pay_rate.lookup "D0120" = some (mkRat 1 10) ∧
    mkRat 1 10 < scanPolicy.procedure_pay_rate_threshold ∧
    (underwrite_claim c7Claim scenarioPractice scanPolicy 100000 1000000).reason_code =
      some DeclineReason.procedure_below_pay_rate_threshold ∧
    DeclineReason.procedure_below_pay_rate_threshold ≠
      DeclineReason.procedure_not_allowed := by decide

/-- C7 (amended): `underwrite_claim` scans procedure codes in claim order,
checking allowed-set membership and then pay rate per code; the reported
reason is decided by the first offending code: PROCEDURE_NOT_ALLOWED when
that code is outside the allowed set, PROCEDURE_PAY_RATE_BELOW_THRESHOLD
when it is allowed but its pay rate is unknown or below threshold — even if
a later code is not allowed. -/
theorem underwrite_first_offending_code (claim : Claim) (practice : Practice)
    (policy : UnderwritingPolicy) (rem avail : Int) (pre : List String)
    (c : String) (post : List String)
    (hpayer : py_strip claim.payer ∈ policy.approved_payers)
    (hkw : (policy.excluded_plan_keywords.any fun kw =>
      str_contains (py_lower (py_strip claim.payer)) (py_lower kw)) = false)
    (hsplit : py_split ';' claim.procedure_code = pre ++ c :: post)
    (hpre : ∀ x ∈ pre, py_strip x ∈ policy.allowed_procedures ∧
      ∃ r, policy.procedure_historical_pay_rate.lookup (py_strip x) = some r ∧
        ¬ r < policy.procedure_pay_rate_threshold) :
    (py_strip c ∉ policy.allowed_procedures →
      (underwrite_claim claim practice policy rem avail).reason_code =
        some DeclineReason.procedure_not_allowed) ∧
    (py_strip c ∈ policy.allowed_procedures →
      (policy.procedure_historical_pay_rate.lookup (py_strip c) = none ∨
        ∃ r, policy.procedure_historical_pay_rate.lookup (py_strip c) = some r ∧
          r < policy.procedure_pay_rate_threshold) →
      (underwrite_claim claim practice policy rem avail).reason_code =
        some DeclineReason.procedure_below_pay_rate_threshold) := by
  have hscan := procedure_scan_prefix_pass policy pre (c :: post) hpre
  constructor
  · intro hc
    have hres : procedure_scan policy (py_split ';' claim.procedure_code) =
        some DeclineReason.procedure_not_allowed := by
      rw [hsplit, hscan]
      simp only [procedure_scan]
      rw [if_pos hc]
    simp only [underwrite_claim]
    rw [if_neg (not_not_intro hpayer), hkw]
    simp only [Bool.false_eq_true, if_false, hres]
  · intro hc hrate
    have hres : procedure_scan policy (py_split ';' claim.procedure_code) =
        some DeclineReason.procedure_below_pay_rate_threshold := by
      rw [hsplit, hscan]
      simp only [procedure_scan]
      rw [if_neg (not_not_intro hc)]
      rcases hrate with hnone | ⟨r, hr, hlt⟩
      · rw [hnone]
      · rw [hr]
        simp only []
        rw [if_pos hlt]
    simp only [underwrite_claim]
    rw [if_neg (not_not_intro hpayer), hkw]
    simp only [Bool.false_eq_true, if_false, hres]

def c7ClaimRev : Claim := { scenarioClaim with procedure_code := "NOPE;D0120" }

theorem underwrite_first_offending_code_witness :
    (underwrite_claim c7ClaimRev scenarioPractice scanPolicy 100000 1000000).reason_code =
      some DeclineReason.procedure_not_allowed ∧
    (underwrite_claim c7Claim scenarioPractice scanPolicy 100000 1000000).reason_code =
      some DeclineReason.procedure_below_pay_rate_threshold :=
  ⟨(underwrite_first_offending_code c7ClaimRev scenarioPractice scanPolicy
      100000 1000000 [] "NOPE" ["D0120"] (by decide) (by decide) (by decide)
      (by simp)).1 (by decide),
   (underwrite_first_offending_code c7Claim scenarioPractice scanPolicy
      100000 1000000 [] "D0120" ["NOPE"] (by decide) (by decide) (by decide)
      (by simp)).2 (by decide) (Or.inr ⟨mkRat 1 10, by decide, by decide⟩)⟩

def c8Policy : UnderwritingPolicy :=
  { approved_payers := ["Aetna"]
    excluded_plan_keywords := []
    allowed_procedures := ["D0120"]
    procedure_pay_rate_threshold := mkRat 1 2
    min_practice_tenure_months := 12
    min_practice_clean_claim_rate := mkRat 9 10
    procedure_historical_pay_rate := [("D0120", mkRat 8 10)] }

def c8Practice : Practice :=
  { scenarioPractice with historical_clean_claim_rate := mkRat 1 2 }

/-- C8 counterexample: a claim passing checks 1-5 whose practice clean-claim
rate (1/2) is below the 9/10 minimum is declined with reason code
"PRACTICE_HISTORY_INSUFFICIENT" — there is no
"PRACTICE_CLEAN_CLAIM_HISTORY_TOO_LOW" code in the source enum. -/
theorem clean_claim_decline_code_name :
    py_strip scenarioClaim.payer ∈ c8Policy.approved_payers ∧
    (c8Policy.excluded_plan_keywords.any fun kw =>
      str_contains (py_lower (py_strip scenarioClaim.payer)) (py_lower kw)) = false ∧
    procedure_scan c8Policy (py_split ';' scenarioClaim.procedure_code) = none ∧
    ¬ c8Practice.tenure_months < c8Policy.min_practice_tenure_months ∧
    c8Practice.historical_clean_claim_rate < c8Policy.min_practice_clean_claim_rate ∧
    underwrite_claim scenarioClaim c8Practice c8Policy 100000 1000000 =
      ⟨false, 0, some DeclineReason.practice_history_insufficient⟩ ∧
    DeclineReason.practice_history_insufficient ≠
      "PRACTICE_CLEAN_CLAIM_HISTORY_TOO_LOW" := by decide

/-- C8 (amended): whenever checks 1-5 pass (payer approved, no excluded
keyword, every procedure allowed with known pay rate at or above threshold,
tenure sufficient) and the practice's clean-claim rate is below the policy
minimum, `underwrite_claim` declines with reason code
PRACTICE_HISTORY_INSUFFICIENT. -/
theorem underwrite_clean_claim_rate_decline (claim : Claim)
    (practice : Practice) (policy : UnderwritingPolicy) (rem avail : Int)
    (hpayer : py_strip claim.payer ∈ policy.approved_payers)
    (hkw : (policy.excluded_plan_keywords.any fun kw =>
      str_contains (py_lower (py_strip claim.payer)) (py_lower kw)) = false)
    (hscan : procedure_scan policy (py_split ';' claim.procedure_code) = none)
    (htenure : ¬ practice.tenure_months < policy.min_practice_tenure_months)
    (hrate : practice.historical_clean_claim_rate <
      policy.min_practice_clean_claim_rate) :
    underwrite_claim claim practice policy rem avail =
      ⟨false, 0, some DeclineReason.practice_history_insufficient⟩ := by
  simp only [underwrite_claim]
  rw [if_neg (not_not_intro hpayer), hkw]
  simp only [Bool.false_eq_true, if_false, hscan]
  rw [if_neg htenure, if_pos hrate]

theorem underwrite_clean_claim_rate_decline_witness :
    underwrite_claim scenarioClaim c8Practice c8Policy 100000 1000000 =
      ⟨false, 0, some DeclineReason.practice_history_insufficient⟩ :=
  underwrite_clean_claim_rate_decline scenarioClaim c8Practice c8Policy
    100000 1000000 (by decide) (by decide) (by decide) (by decide) (by decide)
